import Mathlib

/-!
Shallow embedding of the session-lifecycle core of the badbuddy backend
(`internal/usecase/session/usecase.go` and
`internal/repositories/postgres/session.go`), together with theorems about
its conflict checking, time-window validation, join/leave capacity logic,
and update frame behaviour.

Conventions of the embedding:
* Instants are measured in minutes on a single axis whose origin is
  midnight, January 1, year 0 (the date that Go's `time.Parse` assumes for
  a value parsed with layout `"15:04"`).  A calendar date is represented by
  its day index `d`, so the midnight instant of that date is `d * 1440`;
  a time of day is its minute-of-day.
* UUIDs are modelled as `Nat`.
* Go enum-like string types (`SessionStatus`, `ParticipantStatus`,
  `PlayerLevel`, `VenueStatus`) are kept as `String`, as in the source,
  because the code assigns unvalidated strings to them (e.g.
  `UpdateSession` stores `req.Status` verbatim).
* `float64` money amounts are modelled as `Int`; the code only compares
  them with `0` and copies them.
* The PostgreSQL store is a record of lists of rows; each repository
  method is embedded as a pure function on it.  Fallible writes return
  `Option DB`; `none` corresponds to the Go method returning an error.
-/

namespace Badbuddy

/-- Errors returned by the session use case.  Each constructor corresponds
to one `fmt.Errorf` site in `internal/usecase/session/usecase.go`. -/
inductive SessionError where
  | invalidVenue
  | venueNotActive
  | dateInPast
  | tooShort
  | tooFarAhead
  | invertedRange
  | outsideVenueHours
  | courtBooked (existingStart existingEnd : Int)
  | sessionNotFound
  | notJoinable
  | alreadyStarted
  | previouslyCancelled
  | alreadyJoined
  | addParticipantFailed
  | updateFailed
  | hostCannotLeave
  | cancellationNotAllowed
  | deadlinePassed
  | notParticipating
  | participantNotFound
  | onlyHostCanUpdate
  | cannotUpdateCancelled
  | cannotUpdateCompleted
  | alreadyStartedUpdate
  | invalidPlayerLevel
  | participantLimitExceeded
  deriving Repr, DecidableEq

/-- A row of the `play_sessions` table (`models.Session`, minus the
`created_at`/`updated_at` timestamps, which no claim concerns). -/
structure SessionRow where
  id : Nat
  hostID : Nat
  venueID : Nat
  title : String
  description : Option String
  /-- Day index of `session_date`; the stored midnight instant is `date * 1440`. -/
  date : Int
  /-- Minute of day of `start_time`. -/
  startMin : Int
  /-- Minute of day of `end_time`. -/
  endMin : Int
  playerLevel : String
  maxParticipants : Int
  costPerPerson : Int
  allowCancellation : Bool
  cancellationDeadlineHours : Option Int
  status : String
  deriving Repr, DecidableEq

/-- A row of the `session_participants` table (`models.SessionParticipant`). -/
structure ParticipantRow where
  id : Nat
  sessionID : Nat
  userID : Nat
  status : String
  joinedAt : Int
  cancelledAt : Option Int
  deriving Repr, DecidableEq

/-- One entry of a venue's JSON `open_range` blob
(`responses.OpenRangeResponse`): a day name, an open flag, and the stored
open/close instants. -/
structure OpenRange where
  day : String
  isOpen : Bool
  openTime : Int
  closeTime : Int
  deriving Repr, DecidableEq

/-- A row of the `venues` table, restricted to the fields `CreateSession`
reads (`models.Venue`). -/
structure VenueRow where
  id : Nat
  status : String
  openRanges : List OpenRange
  deriving Repr, DecidableEq

/-- The persistent store: the four tables touched by the session
lifecycle.  `sessionCourts` holds `(session_id, court_id)` pairs. -/
structure DB where
  venues : List VenueRow
  sessions : List SessionRow
  sessionCourts : List (Nat × Nat)
  participants : List ParticipantRow
  deriving Repr, DecidableEq

/-! ### Sorting, modelling SQL `ORDER BY key ASC` -/

/-- Insert `x` into `l` before the first element with a key not smaller
than `x`'s. -/
def insertSorted (key : α → Int) (x : α) : List α → List α
  | [] => [x]
  | y :: ys => if key x ≤ key y then x :: y :: ys else y :: insertSorted key x ys

/-- Insertion sort by an integer key; models `ORDER BY key ASC` (ties in
SQL are returned in an unspecified order, realised here by one fixed
order). -/
def sortByKey (key : α → Int) : List α → List α
  | [] => []
  | x :: xs => insertSorted key x (sortByKey key xs)

theorem mem_insertSorted (key : α → Int) (x a : α) (l : List α) :
    a ∈ insertSorted key x l ↔ a = x ∨ a ∈ l := by
  induction l with
  | nil => simp [insertSorted]
  | cons y ys ih =>
    simp only [insertSorted]
    split
    · simp
    · simp [ih]
      tauto

theorem mem_sortByKey (key : α → Int) (a : α) (l : List α) :
    a ∈ sortByKey key l ↔ a ∈ l := by
  induction l with
  | nil => simp [sortByKey]
  | cons x xs ih => simp [sortByKey, mem_insertSorted, ih]

theorem pairwise_insertSorted (key : α → Int) (x : α) (l : List α)
    (h : l.Pairwise (fun a b => key a ≤ key b)) :
    (insertSorted key x l).Pairwise (fun a b => key a ≤ key b) := by
  induction l with
  | nil => simp [insertSorted]
  | cons y ys ih =>
    simp only [insertSorted]
    rcases List.pairwise_cons.mp h with ⟨hy, hys⟩
    split
    · rename_i hxy
      refine List.pairwise_cons.mpr ⟨?_, h⟩
      intro b hb
      rcases hb with _ | hb
      · exact hxy
      · exact le_trans hxy (hy _ (by assumption))
    · rename_i hxy
      refine List.pairwise_cons.mpr ⟨?_, ih hys⟩
      intro b hb
      rcases (mem_insertSorted key x b ys).mp hb with rfl | hb
      · omega
      · exact hy _ hb

theorem pairwise_sortByKey (key : α → Int) (l : List α) :
    (sortByKey key l).Pairwise (fun a b => key a ≤ key b) := by
  induction l with
  | nil => simp [sortByKey]
  | cons x xs ih => exact pairwise_insertSorted key x _ ih

/-- In a list sorted by `key`, the first element satisfying `p` has the
smallest key among all elements satisfying `p`. -/
theorem find?_key_min (key : α → Int) (p : α → Bool) (l : List α) (x : α)
    (hsort : l.Pairwise (fun a b => key a ≤ key b))
    (hfind : l.find? p = some x) :
    ∀ y ∈ l, p y → key x ≤ key y := by
  induction l with
  | nil => simp at hfind
  | cons z zs ih =>
    rcases List.pairwise_cons.mp hsort with ⟨hz, hzs⟩
    by_cases hpz : p z
    · rw [List.find?_cons_of_pos _ hpz] at hfind
      cases hfind
      intro y hy _
      rcases hy with _ | hy
      · exact le_refl _
      · exact hz _ (by assumption)
    · rw [List.find?_cons_of_neg _ hpz] at hfind
      intro y hy hpy
      rcases hy with _ | hy
      · exact absurd hpy (by simpa using hpz)
      · exact ih hzs hfind y (by assumption) hpy

/-! ### Repository layer (`internal/repositories/postgres/session.go`) -/

namespace SessionRepo

/-- `sessionRepository.Create`: inserts the session row, then one
`session_courts` row per id in `CourtIDs`.  Each `INSERT` commits on its
own; there is no surrounding transaction. -/
def create (db : DB) (s : SessionRow) (courtIDs : List Nat) : DB :=
  { db with
    sessions := db.sessions ++ [s]
    sessionCourts := db.sessionCourts ++ courtIDs.map (fun c => (s.id, c)) }

/-- `sessionRepository.Update`: overwrites every column of the row whose
id matches (`UPDATE play_sessions SET ... WHERE id = :id`); errors
(`none`) when no row was affected.  When `courtIDs` is non-empty it then
deletes and re-inserts the `session_courts` rows of the session. -/
def update (db : DB) (s : SessionRow) (courtIDs : List Nat) : Option DB :=
  if db.sessions.any (fun r => r.id == s.id) then
    let db1 := { db with sessions := db.sessions.map (fun r => if r.id == s.id then s else r) }
    if courtIDs.isEmpty then some db1
    else some { db1 with
      sessionCourts :=
        db1.sessionCourts.filter (fun sc => sc.1 ≠ s.id) ++ courtIDs.map (fun c => (s.id, c)) }
  else none

/-- `sessionRepository.List` as called by `checkSessionConflict`: filter
`ps.session_date = $date`, `ORDER BY ps.session_date ASC, ps.start_time
ASC` (all dates are equal after the filter, so the order is by start
time), `LIMIT 100 OFFSET 0`.  The query has no court condition: the
`filters` map recognises only `date`, `location`, `player_level` and
`status`. -/
def listByDate (db : DB) (date : Int) : List SessionRow :=
  (sortByKey (fun s => s.startMin) (db.sessions.filter (fun s => s.date == date))).take 100

/-- `sessionRepository.GetParticipants`: the participant rows of the
session, `ORDER BY sp.joined_at`. -/
def getParticipants (db : DB) (sid : Nat) : List ParticipantRow :=
  sortByKey (fun p => p.joinedAt) (db.participants.filter (fun p => p.sessionID == sid))

/-- `sessionRepository.GetByID`: the session row together with its
participants (the loaded `SessionDetail`, restricted to the fields the
use case reads). -/
def getByID (db : DB) (sid : Nat) : Option (SessionRow × List ParticipantRow) :=
  (db.sessions.find? (fun r => r.id == sid)).map (fun s => (s, getParticipants db sid))

/-- `sessionRepository.AddParticipant`: `INSERT INTO session_participants`. -/
def addParticipant (db : DB) (p : ParticipantRow) : DB :=
  { db with participants := db.participants ++ [p] }

/-- `sessionRepository.UpdateParticipantStatus`: for every row matching
`(session_id, user_id)` sets `status`, overwrites `joined_at` with `NOW()`
when the new status is `'confirmed'`, and sets `cancelled_at` to `NOW()`
when it is `'cancelled'`; errors (`none`) when no row was affected. -/
def updateParticipantStatus (db : DB) (sid uid : Nat) (status : String) (now : Int) :
    Option DB :=
  if db.participants.any (fun p => p.sessionID == sid && p.userID == uid) then
    some { db with participants := db.participants.map (fun p =>
      if p.sessionID == sid && p.userID == uid then
        { p with
          status := status
          joinedAt := if status == "confirmed" then now else p.joinedAt
          cancelledAt := if status == "cancelled" then some now else p.cancelledAt }
      else p) }
  else none

end SessionRepo

/-! ### Pure helpers of the use case (`internal/usecase/session/usecase.go`) -/

/-- The overlap test of `checkSessionConflict`:
`proposedStart.Before(existingEnd) && existingStart.Before(proposedEnd)`. -/
def overlaps (proposedStart proposedEnd existingStart existingEnd : Int) : Bool :=
  proposedStart < existingEnd && existingStart < proposedEnd

/-- `countParticipantsByStatus`: the numbers of `confirmed` and `pending`
rows. -/
def countParticipantsByStatus (participants : List ParticipantRow) : Int × Int :=
  participants.foldl
    (fun acc p =>
      if p.status == "confirmed" then (acc.1 + 1, acc.2)
      else if p.status == "pending" then (acc.1, acc.2 + 1)
      else acc)
    (0, 0)

/-- `isParticipantInSession`: the status of the first row of the given
user, if any (the Go function returns `(true, status)` or `(false, "")`). -/
def isParticipantInSession (participants : List ParticipantRow) (uid : Nat) : Option String :=
  (participants.find? (fun p => p.userID == uid)).map (fun p => p.status)

/-- `validatePlayerLevel`: membership in the three valid levels. -/
def validatePlayerLevel (level : String) : Bool :=
  level == "beginner" || level == "intermediate" || level == "advanced"

/-- `validateSessionTime`, with the environment-supplied quantities as
parameters: `today` is the day index of `time.Now().Truncate(24h)` and
`limit` the instant `time.Now().AddDate(0, 3, 0)`.  The five checks are in
source order: date before today, duration under 30 minutes, date after the
3-month limit, start after end, and outside `[venueOpen, venueClose]`. -/
def validateSessionTime (today limit : Int) (date startMin endMin venueOpen venueClose : Int) :
    Option SessionError :=
  if date * 1440 < today * 1440 then some .dateInPast
  else if (date * 1440 + endMin) - (date * 1440 + startMin) < 30 then some .tooShort
  else if date * 1440 > limit then some .tooFarAhead
  else if startMin > endMin then some .invertedRange
  else if startMin < venueOpen || endMin > venueClose then some .outsideVenueHours
  else none

/-- Models `time.Parse("15:04", t.String())` for a `time.Time` decoded
from the stored JSON: `t.String()` renders the full
`"2006-01-02 15:04:05 -0700 MST"` layout, which never matches `"15:04"`,
so the parse fails; `CreateSession` discards the error, leaving the zero
`time.Time` — midnight, January 1, year 1.  On the minute axis (origin
midnight, January 1, year 0, a 366-day leap year) that instant is
`366 * 1440 = 527040`, independent of the stored value. -/
def reparseHHMM (_stored : Int) : Int := 527040

/-- The validation loop of `CreateSession` (usecase.go lines 73-79): run
`validateSessionTime` against every open-range entry, returning the first
error; the entry's `day` and `is_open` fields are not consulted, and the
open/close bounds passed on are the `reparseHHMM` re-parses. -/
def validateAgainstRanges (today limit : Int) (date startMin endMin : Int) :
    List OpenRange → Option SessionError
  | [] => none
  | r :: rest =>
    match validateSessionTime today limit date startMin endMin
        (reparseHHMM r.openTime) (reparseHHMM r.closeTime) with
    | some e => some e
    | none => validateAgainstRanges today limit date startMin endMin rest

/-- The scan of `checkSessionConflict` over the listed sessions: the first
non-cancelled one whose window overlaps the proposed window yields
`CourtBooked` with that session's bounds. -/
def findConflict (proposedStart proposedEnd : Int) : List SessionRow → Option SessionError
  | [] => none
  | sess :: rest =>
    if sess.status ≠ "cancelled" &&
        overlaps proposedStart proposedEnd
          (sess.date * 1440 + sess.startMin) (sess.date * 1440 + sess.endMin) then
      some (.courtBooked (sess.date * 1440 + sess.startMin) (sess.date * 1440 + sess.endMin))
    else findConflict proposedStart proposedEnd rest

/-- `checkSessionConflict`: list the sessions of the requested date
(`filters = {date}`, limit 100) and scan them for an overlap.  The
`courtID` parameter is accepted but never used — neither the repository
filter nor the scan restricts the candidate sessions to the requested
court. -/
def checkSessionConflict (db : DB) (date startMin endMin : Int) (courtID : Nat) :
    Option SessionError :=
  let _ := courtID
  findConflict (date * 1440 + startMin) (date * 1440 + endMin) (SessionRepo.listByDate db date)

/-- The per-court conflict loop of `CreateSession`/`UpdateSession`: check
each requested court in order, failing on the first conflict. -/
def firstCourtConflict (db : DB) (date startMin endMin : Int) : List Nat → Option SessionError
  | [] => none
  | c :: cs =>
    match checkSessionConflict db date startMin endMin c with
    | some e => some e
    | none => firstCourtConflict db date startMin endMin cs

/-- `canJoinSession`: the session must be `open` or `full` and must not
have started (`time.Now().After(sessionDateTime)` fails the check). -/
def canJoinSession (sess : SessionRow) (now : Int) : Option SessionError :=
  if sess.status ≠ "open" && sess.status ≠ "full" then some .notJoinable
  else if now > sess.date * 1440 + sess.startMin then some .alreadyStarted
  else none

/-- `canUpdateSession`: not cancelled, not completed, not already started. -/
def canUpdateSession (sess : SessionRow) (now : Int) : Option SessionError :=
  if sess.status == "cancelled" then some .cannotUpdateCancelled
  else if sess.status == "completed" then some .cannotUpdateCompleted
  else if now > sess.date * 1440 + sess.startMin then some .alreadyStartedUpdate
  else none

/-- The cancellation-deadline test of `LeaveSession`: when a deadline is
set, `time.Now().After(SessionDate.Add(-hours))`. -/
def deadlinePassed (sess : SessionRow) (now : Int) : Bool :=
  match sess.cancellationDeadlineHours with
  | some h => now > sess.date * 1440 - h * 60
  | none => false

/-! ### Lifecycle operations -/

/-- `requests.CreateSessionRequest`, with the date/start/end already
parsed (a malformed string fails earlier with a validation error and
touches nothing). -/
structure CreateSessionRequest where
  venueID : Nat
  courtIDs : List Nat
  title : String
  description : String
  date : Int
  startMin : Int
  endMin : Int
  playerLevel : String
  maxParticipants : Int
  costPerPerson : Int
  allowCancellation : Bool
  cancellationDeadlineHours : Int
  deriving Repr, DecidableEq

/-- `requests.UpdateSessionRequest`.  Every field is a plain value (no
pointers), so an absent JSON field arrives as the zero value: `""`, `0`,
`false` or `[]`. -/
structure UpdateSessionRequest where
  title : String
  description : String
  courtIDs : List Nat
  playerLevel : String
  maxParticipants : Int
  costPerPerson : Int
  status : String
  allowCancellation : Bool
  cancellationDeadlineHours : Int
  deriving Repr, DecidableEq

/-- `CreateSession`.  Steps, in source order: venue lookup, venue-active
check, the open-range validation loop, the per-court conflict loop, the
session insert, and the host-participant insert.  `newSessionID` and
`newParticipantID` stand for the generated UUIDs, `now` for `time.Now()`;
`addFails` injects a repository error into `AddParticipant`, the only
write that can fail after the session insert (the final `GetByID` only
shapes the response).  The result pairs the store after the call with the
error returned, if any. -/
def createSession (db : DB) (today limit now : Int) (hostID : Nat)
    (req : CreateSessionRequest) (newSessionID newParticipantID : Nat) (addFails : Bool) :
    DB × Option SessionError :=
  match db.venues.find? (fun v => v.id == req.venueID) with
  | none => (db, some .invalidVenue)
  | some venue =>
    if venue.status ≠ "active" then (db, some .venueNotActive)
    else
      match validateAgainstRanges today limit req.date req.startMin req.endMin venue.openRanges with
      | some e => (db, some e)
      | none =>
        match firstCourtConflict db req.date req.startMin req.endMin req.courtIDs with
        | some e => (db, some e)
        | none =>
          let sess : SessionRow :=
            { id := newSessionID
              hostID := hostID
              venueID := req.venueID
              title := req.title
              description := some req.description
              date := req.date
              startMin := req.startMin
              endMin := req.endMin
              playerLevel := req.playerLevel
              maxParticipants := req.maxParticipants
              costPerPerson := req.costPerPerson
              allowCancellation := req.allowCancellation
              cancellationDeadlineHours := some req.cancellationDeadlineHours
              status := "open" }
          let db1 := SessionRepo.create db sess req.courtIDs
          if addFails then (db1, some .addParticipantFailed)
          else
            (SessionRepo.addParticipant db1
              { id := newParticipantID
                sessionID := newSessionID
                userID := hostID
                status := "confirmed"
                joinedAt := now
                cancelledAt := none }, none)

/-- `JoinSession`.  `newParticipantID` stands for the generated UUID and
`now` for `time.Now()`. -/
def joinSession (db : DB) (now : Int) (sid uid newParticipantID : Nat) :
    DB × Option SessionError :=
  match SessionRepo.getByID db sid with
  | none => (db, some .sessionNotFound)
  | some (sess, _) =>
    match canJoinSession sess now with
    | some e => (db, some e)
    | none =>
      let participants := SessionRepo.getParticipants db sid
      match isParticipantInSession participants uid with
      | some status =>
        if status == "cancelled" then (db, some .previouslyCancelled)
        else (db, some .alreadyJoined)
      | none =>
        let confirmedCount := (countParticipantsByStatus participants).1
        let status := if confirmedCount ≥ sess.maxParticipants then "pending" else "confirmed"
        let db1 := SessionRepo.addParticipant db
          { id := newParticipantID
            sessionID := sid
            userID := uid
            status := status
            joinedAt := now
            cancelledAt := none }
        if status == "confirmed" && confirmedCount + 1 ≥ sess.maxParticipants then
          match SessionRepo.update db1 { sess with status := "full" } [] with
          | none => (db1, some .updateFailed)
          | some db2 => (db2, none)
        else (db1, none)

/-- `LeaveSession`.  After marking the leaving participant cancelled, a
formerly confirmed leaver triggers a scan of the loaded participant list
for the first `pending` row, which is promoted to `confirmed`; with no
pending row, a `full` session is reverted to `open`. -/
def leaveSession (db : DB) (now : Int) (sid uid : Nat) : DB × Option SessionError :=
  match SessionRepo.getByID db sid with
  | none => (db, some .sessionNotFound)
  | some (sess, _) =>
    if sess.hostID == uid then (db, some .hostCannotLeave)
    else if !sess.allowCancellation then (db, some .cancellationNotAllowed)
    else if deadlinePassed sess now then (db, some .deadlinePassed)
    else
      let participants := SessionRepo.getParticipants db sid
      match isParticipantInSession participants uid with
      | none => (db, some .notParticipating)
      | some currentStatus =>
        match SessionRepo.updateParticipantStatus db sid uid "cancelled" now with
        | none => (db, some .participantNotFound)
        | some db1 =>
          if currentStatus == "confirmed" then
            match participants.find? (fun p => p.status == "pending") with
            | some p =>
              match SessionRepo.updateParticipantStatus db1 sid p.userID "confirmed" now with
              | none => (db1, some .participantNotFound)
              | some db2 => (db2, none)
            | none =>
              if sess.status == "full" then
                match SessionRepo.update db1 { sess with status := "open" } [] with
                | none => (db1, some .updateFailed)
                | some db2 => (db2, none)
              else (db1, none)
          else (db1, none)

/-- The field-merge portion of `UpdateSession` (usecase.go lines 176-207):
each guarded field overwrites only when its request value is non-zero,
with early error returns from the player-level and participant-limit
validations; `AllowCancellation` is assigned unconditionally. -/
def applyUpdateFields (sess : SessionRow) (participants : List ParticipantRow)
    (req : UpdateSessionRequest) : Except SessionError SessionRow :=
  let s := if req.title ≠ "" then { sess with title := req.title } else sess
  let s := if req.description ≠ "" then { s with description := some req.description } else s
  if req.playerLevel ≠ "" && !validatePlayerLevel req.playerLevel then
    .error .invalidPlayerLevel
  else
    let s := if req.playerLevel ≠ "" then { s with playerLevel := req.playerLevel } else s
    if req.maxParticipants > 0 &&
        (countParticipantsByStatus participants).1 > req.maxParticipants then
      .error .participantLimitExceeded
    else
      let s := if req.maxParticipants > 0 then { s with maxParticipants := req.maxParticipants }
               else s
      let s := if req.costPerPerson ≥ 0 then { s with costPerPerson := req.costPerPerson } else s
      let s := if req.status ≠ "" then { s with status := req.status } else s
      let s := { s with allowCancellation := req.allowCancellation }
      let s := if req.cancellationDeadlineHours > 0 then
                 { s with cancellationDeadlineHours := some req.cancellationDeadlineHours }
               else s
      .ok s

/-- `UpdateSession`: load, host check, updatable check, field merge, court
conflict loop (only when court ids were provided, against the session's
existing date and time), and the repository update. -/
def updateSession (db : DB) (now : Int) (sid hostID : Nat) (req : UpdateSessionRequest) :
    DB × Option SessionError :=
  match SessionRepo.getByID db sid with
  | none => (db, some .sessionNotFound)
  | some (sess, participants) =>
    if sess.hostID ≠ hostID then (db, some .onlyHostCanUpdate)
    else
      match canUpdateSession sess now with
      | some e => (db, some e)
      | none =>
        match applyUpdateFields sess participants req with
        | .error e => (db, some e)
        | .ok s =>
          match firstCourtConflict db s.date s.startMin s.endMin req.courtIDs with
          | some e => (db, some e)
          | none =>
            match SessionRepo.update db s req.courtIDs with
            | none => (db, some .sessionNotFound)
            | some db1 => (db1, none)

/-! ### Concrete stores used as inputs for evaluations -/

/-- A store holding one non-cancelled session (id 1) on date 5, 10:00
(600) to 12:00 (720), associated with court 7 only. -/
def conflictDB : DB :=
  { venues := []
    sessions := [{ id := 1, hostID := 10, venueID := 5, title := "existing",
                   description := none, date := 5, startMin := 600, endMin := 720,
                   playerLevel := "beginner", maxParticipants := 4, costPerPerson := 0,
                   allowCancellation := true, cancellationDeadlineHours := none,
                   status := "open" }]
    sessionCourts := [(1, 7)]
    participants := [] }

/-! ### C7 -/

/-- C7: the conflict predicate is symmetric — swapping the proposed and
existing windows gives the same answer — and windows that merely touch
(one's end instant equal to the other's start instant) never conflict,
in either order. -/
theorem overlaps_symm_and_touching :
    (∀ s1 e1 s2 e2 : Int, overlaps s1 e1 s2 e2 = overlaps s2 e2 s1 e1) ∧
    (∀ s1 e1 e2 : Int, overlaps s1 e1 e1 e2 = false) ∧
    (∀ s1 s2 e2 : Int, overlaps s1 s2 s2 e2 = false) := by
  refine ⟨fun s1 e1 s2 e2 => ?_, fun s1 e1 e2 => ?_, fun s1 s2 e2 => ?_⟩
  · simp only [overlaps, Bool.and_comm]
  · simp [overlaps]
  · simp [overlaps]

/-! ### C1 -/

/-- C1: the court-conflict check does not restrict the candidate sessions
to the requested court: its result is independent of the `courtID`
argument, and on `conflictDB` — whose only session is associated with
court 7 — a request for the distinct court 3 on the same date with an
overlapping window still fails with `CourtBooked`. -/
theorem checkSessionConflict_ignores_court :
    (∀ (db : DB) (date startMin endMin : Int) (c c' : Nat),
        checkSessionConflict db date startMin endMin c =
          checkSessionConflict db date startMin endMin c') ∧
    conflictDB.sessionCourts = [(1, 7)] ∧
    checkSessionConflict conflictDB 5 650 750 3 =
      some (SessionError.courtBooked 7800 7920) := by
  refine ⟨fun db date s e c c' => rfl, rfl, by decide⟩

/-! ### C8 -/

/-- C8 (counterexample): with a valid date, a window whose start equals
its end is rejected as `TooShort`, not as `InvertedRange` as the claim
states. -/
theorem validateSessionTime_equal_bounds_counterexample :
    validateSessionTime 0 200000 1 600 600 0 1440 = some SessionError.tooShort ∧
    SessionError.tooShort ≠ SessionError.invertedRange := by
  exact ⟨by decide, by decide⟩

/-- C8 (amended): `validateSessionTime` checks the 30-minute duration
rule directly after the date-not-in-past rule — before the 3-month,
inverted-range and venue-hours rules — so any window with
`end - start < 30` on a valid date yields `TooShort` whatever the other
parameters; consequently `InvertedRange` is unreachable, since
`start > end` forces a negative duration. -/
theorem validateSessionTime_duration_first :
    (∀ today limit date startMin endMin venueOpen venueClose : Int,
        ¬ date * 1440 < today * 1440 → endMin - startMin < 30 →
        validateSessionTime today limit date startMin endMin venueOpen venueClose =
          some SessionError.tooShort) ∧
    (∀ today limit date startMin endMin venueOpen venueClose : Int,
        validateSessionTime today limit date startMin endMin venueOpen venueClose ≠
          some SessionError.invertedRange) := by
  constructor
  · intro today limit date s e vo vc h1 h2
    simp only [validateSessionTime]
    rw [if_neg h1, if_pos (by omega)]
  · intro today limit date s e vo vc
    simp only [validateSessionTime]
    split
    · simp
    · split
      · simp
      · split
        · simp
        · split
          · rename_i hdur _ hinv
            exact absurd hinv (by omega)
          · split <;> simp

/-- C8 (witness): the amended theorem applied at the counterexample's
input. -/
theorem validateSessionTime_duration_first_witness :
    validateSessionTime 0 200000 1 600 600 0 1440 = some SessionError.tooShort :=
  validateSessionTime_duration_first.1 0 200000 1 600 600 0 1440 (by omega) (by omega)

/-! ### C2 -/

/-- A store with one active venue (id 5) declaring a single open range,
08:00 (480) to 22:00 (1320), and no sessions. -/
def openRangeVenueDB : DB :=
  { venues := [{ id := 5, status := "active",
                 openRanges := [{ day := "monday", isOpen := true,
                                  openTime := 480, closeTime := 1320 }] }]
    sessions := []
    sessionCourts := []
    participants := [] }

/-- A create request for venue 5, court 7, date 1, 10:00 (600) to 11:00
(660) — a window lying entirely inside the venue's declared 08:00-22:00
range. -/
def fittingCreateReq : CreateSessionRequest :=
  { venueID := 5, courtIDs := [7], title := "morning game", description := "",
    date := 1, startMin := 600, endMin := 660, playerLevel := "beginner",
    maxParticipants := 4, costPerPerson := 0, allowCancellation := true,
    cancellationDeadlineHours := 2 }

/-- C2: a create request whose window fits entirely inside the venue's
single declared open range (and violates no other rule) is nonetheless
rejected with `OutsideVenueHours`, and the store is untouched: the stored
open/close times are re-parsed with layout `"15:04"` against the full
`time.Time` string form, the parse fails, and the window is compared
against the zero instant instead of the declared range. -/
theorem createSession_rejects_fitting_window :
    createSession openRangeVenueDB 0 200000 50 10 fittingCreateReq 1 2 false =
      (openRangeVenueDB, some SessionError.outsideVenueHours) := by
  decide

/-! ### C3 -/

/-- A store with one active venue (id 5) declaring no open ranges (the
only configuration under which `CreateSession` can reach its write
steps), and otherwise empty. -/
def emptyVenueDB : DB :=
  { venues := [{ id := 5, status := "active", openRanges := [] }]
    sessions := []
    sessionCourts := []
    participants := [] }

/-- A valid create request against `emptyVenueDB`. -/
def plainCreateReq : CreateSessionRequest :=
  { venueID := 5, courtIDs := [7], title := "game", description := "",
    date := 1, startMin := 600, endMin := 660, playerLevel := "beginner",
    maxParticipants := 4, costPerPerson := 0, allowCancellation := true,
    cancellationDeadlineHours := 2 }

/-- C3: `CreateSession` is not atomic.  When the host-participant insert
fails after the session insert succeeded, the call returns an error, yet
the session row (id 1) and its court association remain persisted while
no participant row exists — exactly the partial state the claim rules
out. -/
theorem createSession_partial_write_on_participant_failure :
    (createSession emptyVenueDB 0 200000 50 10 plainCreateReq 1 2 true).2 =
      some SessionError.addParticipantFailed ∧
    ((createSession emptyVenueDB 0 200000 50 10 plainCreateReq 1 2 true).1.sessions.map
      (fun s => s.id)) = [1] ∧
    (createSession emptyVenueDB 0 200000 50 10 plainCreateReq 1 2 true).1.sessionCourts =
      [(1, 7)] ∧
    (createSession emptyVenueDB 0 200000 50 10 plainCreateReq 1 2 true).1.participants = [] := by
  refine ⟨by decide, by decide, by decide, by decide⟩

/-! ### C10 -/

/-- C10: `UpdateParticipantStatus` with status `confirmed` overwrites the
matched rows' `joined_at` with the current time (while leaving
`cancelled_at` alone), whereas with status `cancelled` it leaves
`joined_at` unchanged and sets `cancelled_at`; all other rows are
untouched.  Through the promotion call in `LeaveSession` this is what
replaces a promoted pending participant's original `joined_at` (see the
promotion theorem's `joinedAt = now` conclusion). -/
theorem updateParticipantStatus_timestamps
    (db : DB) (sid uid : Nat) (now : Int) (db1 db2 : DB)
    (hconf : SessionRepo.updateParticipantStatus db sid uid "confirmed" now = some db1)
    (hcanc : SessionRepo.updateParticipantStatus db sid uid "cancelled" now = some db2) :
    db1.participants = db.participants.map (fun p =>
      if p.sessionID == sid && p.userID == uid then
        { p with status := "confirmed", joinedAt := now } else p) ∧
    db2.participants = db.participants.map (fun p =>
      if p.sessionID == sid && p.userID == uid then
        { p with status := "cancelled", cancelledAt := some now } else p) := by
  unfold SessionRepo.updateParticipantStatus at hconf hcanc
  constructor
  · split at hconf
    · injection hconf with h
      subst h
      simp
    · exact absurd hconf (by simp)
  · split at hcanc
    · injection hcanc with h
      subst h
      simp
    · exact absurd hcanc (by simp)

/-- A store with a single participant row (session 1, user 20, pending,
joined at 100, never cancelled). -/
def oneParticipantDB : DB :=
  { venues := [], sessions := [], sessionCourts := []
    participants := [{ id := 3, sessionID := 1, userID := 20, status := "pending",
                       joinedAt := 100, cancelledAt := none }] }

/-- The store after confirming user 20 in `oneParticipantDB` at time 500:
`joined_at` has been overwritten with 500. -/
def afterConfirmDB : DB :=
  { venues := [], sessions := [], sessionCourts := []
    participants := [{ id := 3, sessionID := 1, userID := 20, status := "confirmed",
                       joinedAt := 500, cancelledAt := none }] }

/-- The store after cancelling user 20 in `oneParticipantDB` at time 500:
`joined_at` still reads 100 and `cancelled_at` is now 500. -/
def afterCancelDB : DB :=
  { venues := [], sessions := [], sessionCourts := []
    participants := [{ id := 3, sessionID := 1, userID := 20, status := "cancelled",
                       joinedAt := 100, cancelledAt := some 500 }] }

/-- C10 (witness): on `oneParticipantDB`, confirming user 20 rewrites the
row's `joined_at` to the current time 500, and cancelling instead keeps
`joined_at = 100` and sets `cancelled_at = 500`. -/
theorem updateParticipantStatus_timestamps_witness :
    (SessionRepo.updateParticipantStatus oneParticipantDB 1 20 "confirmed" 500 =
      some afterConfirmDB) ∧
    (SessionRepo.updateParticipantStatus oneParticipantDB 1 20 "cancelled" 500 =
      some afterCancelDB) ∧
    afterConfirmDB.participants = oneParticipantDB.participants.map (fun p =>
      if p.sessionID == 1 && p.userID == 20 then
        { p with status := "confirmed", joinedAt := 500 } else p) ∧
    afterCancelDB.participants = oneParticipantDB.participants.map (fun p =>
      if p.sessionID == 1 && p.userID == 20 then
        { p with status := "cancelled", cancelledAt := some 500 } else p) := by
  refine ⟨by decide, by decide, ?_⟩
  exact updateParticipantStatus_timestamps oneParticipantDB 1 20 500 afterConfirmDB afterCancelDB
    (by decide) (by decide)

/-! ### C4 -/

/-- C4: when the loaded participant list already holds a row for the
joining user, `JoinSession` fails — with the previously-cancelled error
if that row's status is `cancelled` and the already-joined error for any
other status — and the store is returned unchanged, so no participant row
is inserted. -/
theorem joinSession_rejects_existing_member
    (db : DB) (now : Int) (sid uid pid : Nat) (sess : SessionRow)
    (parts : List ParticipantRow) (st : String)
    (hget : SessionRepo.getByID db sid = some (sess, parts))
    (hjoin : canJoinSession sess now = none)
    (hmem : isParticipantInSession (SessionRepo.getParticipants db sid) uid = some st) :
    joinSession db now sid uid pid =
      (db, some (if st == "cancelled" then SessionError.previouslyCancelled
                 else SessionError.alreadyJoined)) := by
  unfold joinSession
  rw [hget]
  simp only [hjoin, hmem]
  split <;> rfl

/-- A store holding session 1 (open, max 4, starting at instant 15000)
with user 20 already confirmed. -/
def joinGuardDB : DB :=
  { venues := []
    sessions := [{ id := 1, hostID := 10, venueID := 5, title := "g", description := none,
                   date := 10, startMin := 600, endMin := 720, playerLevel := "beginner",
                   maxParticipants := 4, costPerPerson := 0, allowCancellation := true,
                   cancellationDeadlineHours := none, status := "open" }]
    sessionCourts := []
    participants := [{ id := 2, sessionID := 1, userID := 20, status := "confirmed",
                       joinedAt := 100, cancelledAt := none }] }

/-- C4 (witness): user 20, already confirmed in session 1, is rejected
with the already-joined error and the store is unchanged. -/
theorem joinSession_rejects_existing_member_witness :
    joinSession joinGuardDB 200 1 20 99 = (joinGuardDB, some SessionError.alreadyJoined) := by
  have h := joinSession_rejects_existing_member joinGuardDB 200 1 20 99
    { id := 1, hostID := 10, venueID := 5, title := "g", description := none,
      date := 10, startMin := 600, endMin := 720, playerLevel := "beginner",
      maxParticipants := 4, costPerPerson := 0, allowCancellation := true,
      cancellationDeadlineHours := none, status := "open" }
    (SessionRepo.getParticipants joinGuardDB 1) "confirmed"
    (by decide) (by decide) (by decide)
  exact h.trans (by decide)

/-! ### Helper lemmas about the repository -/

theorem getByID_find (db : DB) (sid : Nat) (sess : SessionRow) (parts : List ParticipantRow)
    (h : SessionRepo.getByID db sid = some (sess, parts)) :
    db.sessions.find? (fun r => r.id == sid) = some sess ∧
    parts = SessionRepo.getParticipants db sid := by
  unfold SessionRepo.getByID at h
  cases hf : db.sessions.find? (fun r => r.id == sid) with
  | none => rw [hf] at h; simp at h
  | some s0 =>
    rw [hf] at h
    simp only [Option.map_some'] at h
    injection h with h
    rw [Prod.mk.injEq] at h
    exact ⟨by rw [h.1], h.2.symm⟩

theorem update_no_courts (db : DB) (s : SessionRow)
    (hany : db.sessions.any (fun r => r.id == s.id) = true) :
    SessionRepo.update db s [] =
      some { db with sessions := db.sessions.map (fun r => if r.id == s.id then s else r) } := by
  unfold SessionRepo.update
  rw [if_pos hany]
  rfl

/-! ### C5 -/

/-- C5: when the join guards pass and the user is not yet a member, the
inserted participant row is `confirmed` exactly when the confirmed count
is strictly below `max_participants` (and `pending` otherwise), and the
session row is rewritten to status `full` exactly when the insert brings
the confirmed count up to `max_participants`; otherwise the session rows
are left untouched. -/
theorem joinSession_capacity
    (db : DB) (now : Int) (sid uid pid : Nat) (sess : SessionRow)
    (parts : List ParticipantRow)
    (hget : SessionRepo.getByID db sid = some (sess, parts))
    (hjoin : canJoinSession sess now = none)
    (hnew : isParticipantInSession (SessionRepo.getParticipants db sid) uid = none) :
    (joinSession db now sid uid pid).2 = none ∧
    (joinSession db now sid uid pid).1.participants = db.participants ++
      [{ id := pid, sessionID := sid, userID := uid,
         status := if (countParticipantsByStatus (SessionRepo.getParticipants db sid)).1 <
             sess.maxParticipants then "confirmed" else "pending",
         joinedAt := now, cancelledAt := none }] ∧
    (joinSession db now sid uid pid).1.sessions =
      (if (countParticipantsByStatus (SessionRepo.getParticipants db sid)).1 + 1 =
          sess.maxParticipants then
         db.sessions.map (fun r => if r.id == sess.id then { sess with status := "full" } else r)
       else db.sessions) := by
  obtain ⟨hfind, hparts⟩ := getByID_find db sid sess parts hget
  have hmemsess : sess ∈ db.sessions := List.mem_of_find?_eq_some hfind
  have hany : (db.sessions.any (fun r => r.id == sess.id)) = true := by
    rw [List.any_eq_true]
    exact ⟨sess, hmemsess, by simp⟩
  have hres : joinSession db now sid uid pid =
      (let confirmedCount := (countParticipantsByStatus (SessionRepo.getParticipants db sid)).1
       let status := if confirmedCount ≥ sess.maxParticipants then "pending" else "confirmed"
       let db1 := SessionRepo.addParticipant db
         { id := pid, sessionID := sid, userID := uid, status := status,
           joinedAt := now, cancelledAt := none }
       if status == "confirmed" && confirmedCount + 1 ≥ sess.maxParticipants then
         match SessionRepo.update db1 { sess with status := "full" } [] with
         | none => (db1, some SessionError.updateFailed)
         | some db2 => (db2, none)
       else (db1, none)) := by
    simp only [joinSession, hget, hjoin, hnew]
  by_cases hlt : (countParticipantsByStatus (SessionRepo.getParticipants db sid)).1 <
      sess.maxParticipants
  · have hstatus : (if (countParticipantsByStatus (SessionRepo.getParticipants db sid)).1 ≥
        sess.maxParticipants then "pending" else "confirmed") = "confirmed" := if_neg (by omega)
    by_cases hreach : (countParticipantsByStatus (SessionRepo.getParticipants db sid)).1 + 1 ≥
        sess.maxParticipants
    · have heq : (countParticipantsByStatus (SessionRepo.getParticipants db sid)).1 + 1 =
          sess.maxParticipants := by omega
      rw [hres]
      simp only [hstatus]
      rw [if_pos (by simp [hreach])]
      rw [update_no_courts _ _ (by simpa [SessionRepo.addParticipant] using hany)]
      refine ⟨rfl, by simp [SessionRepo.addParticipant, if_pos hlt], ?_⟩
      rw [if_pos heq]
      simp [SessionRepo.addParticipant]
    · rw [hres]
      simp only [hstatus]
      rw [if_neg (by simp [hreach])]
      refine ⟨rfl, by simp [SessionRepo.addParticipant, if_pos hlt], ?_⟩
      rw [if_neg (by omega)]
      simp [SessionRepo.addParticipant]
  · have hstatus : (if (countParticipantsByStatus (SessionRepo.getParticipants db sid)).1 ≥
        sess.maxParticipants then "pending" else "confirmed") = "pending" := if_pos (by omega)
    rw [hres]
    simp only [hstatus]
    rw [if_neg (by simp)]
    refine ⟨rfl, by simp [SessionRepo.addParticipant, if_neg hlt], ?_⟩
    rw [if_neg (by omega)]
    simp [SessionRepo.addParticipant]

/-- Session 1: host 10, max 2 participants, open, on date 10 at 10:00. -/
def capSess : SessionRow :=
  { id := 1, hostID := 10, venueID := 5, title := "g", description := none,
    date := 10, startMin := 600, endMin := 720, playerLevel := "beginner",
    maxParticipants := 2, costPerPerson := 0, allowCancellation := true,
    cancellationDeadlineHours := none, status := "open" }

/-- A store holding `capSess` with only the host confirmed (1 of 2). -/
def joinCapDB : DB :=
  { venues := []
    sessions := [capSess]
    sessionCourts := []
    participants := [{ id := 2, sessionID := 1, userID := 10, status := "confirmed",
                       joinedAt := 0, cancelledAt := none }] }

/-- C5 (witness): user 30 joining `joinCapDB` (1 confirmed of max 2) is
admitted as `confirmed`, and since the insert reaches the maximum the
session row is rewritten to `full`. -/
theorem joinSession_capacity_witness :
    (joinSession joinCapDB 200 1 30 99).2 = none ∧
    (joinSession joinCapDB 200 1 30 99).1.participants = joinCapDB.participants ++
      [{ id := 99, sessionID := 1, userID := 30,
         status := if (countParticipantsByStatus (SessionRepo.getParticipants joinCapDB 1)).1 <
             capSess.maxParticipants then "confirmed" else "pending",
         joinedAt := 200, cancelledAt := none }] ∧
    (joinSession joinCapDB 200 1 30 99).1.sessions =
      (if (countParticipantsByStatus (SessionRepo.getParticipants joinCapDB 1)).1 + 1 =
          capSess.maxParticipants then
         joinCapDB.sessions.map (fun r =>
           if r.id == capSess.id then { capSess with status := "full" } else r)
       else joinCapDB.sessions) :=
  joinSession_capacity joinCapDB 200 1 30 99 capSess (SessionRepo.getParticipants joinCapDB 1)
    (by decide) (by decide) (by decide)

/-! ### C6 -/

/-- C6: when a confirmed non-host participant leaves (cancellation
allowed, deadline not passed), then: if the loaded participant list has a
pending row, the first pending row in `joined_at` order — which has the
smallest `joined_at` among all pending rows — is promoted to `confirmed`
(its `joined_at` being rewritten to the current time) and the session rows
are untouched, so a `full` session stays `full`; if there is no pending
row and the session was `full`, the session row is rewritten to `open`. -/
theorem leaveSession_promotion
    (db : DB) (now : Int) (sid uid : Nat) (sess : SessionRow) (parts0 : List ParticipantRow)
    (hget : SessionRepo.getByID db sid = some (sess, parts0))
    (hhost : (sess.hostID == uid) = false)
    (hallow : sess.allowCancellation = true)
    (hdeadline : deadlinePassed sess now = false)
    (hconf : isParticipantInSession (SessionRepo.getParticipants db sid) uid =
      some "confirmed") :
    (∀ p, (SessionRepo.getParticipants db sid).find? (fun q => q.status == "pending") =
        some p →
      (leaveSession db now sid uid).2 = none ∧
      (leaveSession db now sid uid).1.sessions = db.sessions ∧
      (∀ q ∈ SessionRepo.getParticipants db sid, q.status = "pending" →
        p.joinedAt ≤ q.joinedAt) ∧
      (∀ r ∈ (leaveSession db now sid uid).1.participants,
        r.sessionID = sid → r.userID = p.userID →
        r.status = "confirmed" ∧ r.joinedAt = now)) ∧
    ((SessionRepo.getParticipants db sid).find? (fun q => q.status == "pending") = none →
      sess.status = "full" →
      (leaveSession db now sid uid).2 = none ∧
      (leaveSession db now sid uid).1.sessions =
        db.sessions.map (fun r => if r.id == sess.id then { sess with status := "open" }
          else r)) := by
  obtain ⟨hfind, -⟩ := getByID_find db sid sess parts0 hget
  have hmemsess : sess ∈ db.sessions := List.mem_of_find?_eq_some hfind
  have hanysess : (db.sessions.any (fun r => r.id == sess.id)) = true := by
    rw [List.any_eq_true]
    exact ⟨sess, hmemsess, by simp⟩
  -- the leaving user's row exists among the session's participant rows
  obtain ⟨pr, hprfind, hprstat⟩ :
      ∃ pr, (SessionRepo.getParticipants db sid).find? (fun q => q.userID == uid) = some pr ∧
        pr.status = "confirmed" := by
    unfold isParticipantInSession at hconf
    cases hf : (SessionRepo.getParticipants db sid).find? (fun q => q.userID == uid) with
    | none => rw [hf] at hconf; simp at hconf
    | some q =>
      rw [hf] at hconf
      simp only [Option.map_some'] at hconf
      injection hconf with h
      exact ⟨q, rfl, h⟩
  have hpruid : (pr.userID == uid) = true := by
    simpa using List.find?_some hprfind
  have hprmem : pr ∈ SessionRepo.getParticipants db sid := List.mem_of_find?_eq_some hprfind
  have hprfacts : pr ∈ db.participants ∧ (pr.sessionID == sid) = true := by
    have := (mem_sortByKey _ pr _).mp hprmem
    exact ⟨(List.mem_filter.mp this).1, (List.mem_filter.mp this).2⟩
  have hany1 : (db.participants.any (fun q => q.sessionID == sid && q.userID == uid)) = true := by
    rw [List.any_eq_true]
    exact ⟨pr, hprfacts.1, by rw [Bool.and_eq_true]; exact ⟨hprfacts.2, hpruid⟩⟩
  have hupd1 : SessionRepo.updateParticipantStatus db sid uid "cancelled" now =
      some { db with participants := db.participants.map (fun q =>
        if q.sessionID == sid && q.userID == uid then
          { q with status := "cancelled", cancelledAt := some now } else q) } := by
    unfold SessionRepo.updateParticipantStatus
    rw [if_pos hany1]
    simp
  constructor
  · -- promotion branch
    intro p hp
    have hpmem : p ∈ SessionRepo.getParticipants db sid := List.mem_of_find?_eq_some hp
    have hpfacts : p ∈ db.participants ∧ (p.sessionID == sid) = true := by
      have := (mem_sortByKey _ p _).mp hpmem
      exact ⟨(List.mem_filter.mp this).1, (List.mem_filter.mp this).2⟩
    have hany2 : ((db.participants.map (fun q =>
        if q.sessionID == sid && q.userID == uid then
          { q with status := "cancelled", cancelledAt := some now } else q)).any
          (fun q => q.sessionID == sid && q.userID == p.userID)) = true := by
      rw [List.any_eq_true]
      refine ⟨if p.sessionID == sid && p.userID == uid then
          { p with status := "cancelled", cancelledAt := some now } else p,
        List.mem_map.mpr ⟨p, hpfacts.1, rfl⟩, ?_⟩
      split <;> simp_all
    have hupd2 : SessionRepo.updateParticipantStatus
        { db with participants := db.participants.map (fun q =>
          if q.sessionID == sid && q.userID == uid then
            { q with status := "cancelled", cancelledAt := some now } else q) }
        sid p.userID "confirmed" now =
        some { db with participants := (db.participants.map (fun q =>
          if q.sessionID == sid && q.userID == uid then
            { q with status := "cancelled", cancelledAt := some now } else q)).map (fun q =>
          if q.sessionID == sid && q.userID == p.userID then
            { q with status := "confirmed", joinedAt := now } else q) } := by
      unfold SessionRepo.updateParticipantStatus
      rw [if_pos hany2]
      simp
    have hres : leaveSession db now sid uid =
        ({ db with participants := (db.participants.map (fun q =>
          if q.sessionID == sid && q.userID == uid then
            { q with status := "cancelled", cancelledAt := some now } else q)).map (fun q =>
          if q.sessionID == sid && q.userID == p.userID then
            { q with status := "confirmed", joinedAt := now } else q) }, none) := by
      simp only [leaveSession, hget, hhost, hallow, hdeadline, hconf, hupd1, hp, hupd2]
      simp
    refine ⟨by rw [hres], by rw [hres], ?_, ?_⟩
    · intro q hq hqpend
      exact find?_key_min (fun r => r.joinedAt) (fun r => r.status == "pending") _ p
        (pairwise_sortByKey _ _) hp q hq (by simp [hqpend])
    · intro r hr hrsid hruid
      rw [hres] at hr
      simp only [List.mem_map] at hr
      obtain ⟨y, hy, rfl⟩ := hr
      by_cases hcond : (y.sessionID == sid && y.userID == p.userID) = true
      · rw [if_pos hcond]
        exact ⟨rfl, rfl⟩
      · rw [if_neg hcond] at hrsid hruid ⊢
        exact absurd (by rw [Bool.and_eq_true]; exact ⟨by simp [hrsid], by simp [hruid]⟩) hcond
  · -- no pending participant: a full session reverts to open
    intro hnone hfull
    have hupd3 : SessionRepo.update
        { db with participants := db.participants.map (fun q =>
          if q.sessionID == sid && q.userID == uid then
            { q with status := "cancelled", cancelledAt := some now } else q) }
        { sess with status := "open" } [] =
        some { db with
          participants := db.participants.map (fun q =>
            if q.sessionID == sid && q.userID == uid then
              { q with status := "cancelled", cancelledAt := some now } else q)
          sessions := db.sessions.map (fun r =>
            if r.id == sess.id then { sess with status := "open" } else r) } := by
      have hany' : (({ db with participants := db.participants.map (fun q =>
          if q.sessionID == sid && q.userID == uid then
            { q with status := "cancelled", cancelledAt := some now } else q) } : DB).sessions.any
          (fun r => r.id == ({ sess with status := "open" } : SessionRow).id)) = true := hanysess
      rw [update_no_courts _ _ hany']
    rw [hallow] at hupd3
    have hres : leaveSession db now sid uid =
        ({ db with
          participants := db.participants.map (fun q =>
            if q.sessionID == sid && q.userID == uid then
              { q with status := "cancelled", cancelledAt := some now } else q)
          sessions := db.sessions.map (fun r =>
            if r.id == sess.id then { sess with status := "open" } else r) }, none) := by
      simp only [leaveSession, hget, hhost, hallow, hdeadline, hconf, hupd1, hnone, hfull, hupd3]
      simp
    exact ⟨by rw [hres], by rw [hres]⟩

/-- A full session (id 1, host 10, max 2) allowing cancellation with no
deadline. -/
def leaveSess : SessionRow :=
  { id := 1, hostID := 10, venueID := 5, title := "g", description := none,
    date := 10, startMin := 600, endMin := 720, playerLevel := "beginner",
    maxParticipants := 2, costPerPerson := 0, allowCancellation := true,
    cancellationDeadlineHours := none, status := "full" }

/-- The pending row with the earliest `joined_at` (user 40, joined at 7;
the other pending row, user 30, joined at 9). -/
def zRow : ParticipantRow :=
  { id := 5, sessionID := 1, userID := 40, status := "pending", joinedAt := 7,
    cancelledAt := none }

/-- A store holding `leaveSess` with host 10 and user 20 confirmed and
users 30 (joined at 9) and 40 (joined at 7) pending. -/
def leaveDB : DB :=
  { venues := []
    sessions := [leaveSess]
    sessionCourts := []
    participants :=
      [{ id := 2, sessionID := 1, userID := 10, status := "confirmed", joinedAt := 0,
         cancelledAt := none },
       { id := 3, sessionID := 1, userID := 20, status := "confirmed", joinedAt := 5,
         cancelledAt := none },
       { id := 4, sessionID := 1, userID := 30, status := "pending", joinedAt := 9,
         cancelledAt := none },
       zRow] }

/-- C6 (witness): confirmed user 20 leaving `leaveDB` succeeds and leaves
the session rows untouched (the session stays `full`); the promoted row is
`zRow`, the pending row with the earliest `joined_at`. -/
theorem leaveSession_promotion_witness :
    (leaveSession leaveDB 50 1 20).2 = none ∧
    (leaveSession leaveDB 50 1 20).1.sessions = leaveDB.sessions := by
  have h := (leaveSession_promotion leaveDB 50 1 20 leaveSess
    (SessionRepo.getParticipants leaveDB 1) (by decide) (by decide) (by decide) (by decide)
    (by decide)).1 zRow (by decide)
  exact ⟨h.1, h.2.1⟩

/-! ### C9 -/

/-- The field-level result of `UpdateSession`'s merge, as the code
implements it: `title`, `description`, `player_level`, `max_participants`,
`status` and `cancellation_deadline_hours` are overwritten only when the
request value is non-zero, `cost_per_person` is overwritten whenever the
request value is at least 0 (which includes the absent zero value), and
`allow_cancellation` is always overwritten with the request value; the
identity, venue, date and time fields are never touched. -/
def mergedRow (sess : SessionRow) (req : UpdateSessionRequest) : SessionRow :=
  { sess with
    title := if req.title ≠ "" then req.title else sess.title
    description := if req.description ≠ "" then some req.description else sess.description
    playerLevel := if req.playerLevel ≠ "" then req.playerLevel else sess.playerLevel
    maxParticipants := if req.maxParticipants > 0 then req.maxParticipants
                       else sess.maxParticipants
    costPerPerson := if req.costPerPerson ≥ 0 then req.costPerPerson else sess.costPerPerson
    status := if req.status ≠ "" then req.status else sess.status
    allowCancellation := req.allowCancellation
    cancellationDeadlineHours := if req.cancellationDeadlineHours > 0 then
        some req.cancellationDeadlineHours
      else sess.cancellationDeadlineHours }

set_option maxHeartbeats 1600000 in
theorem applyUpdateFields_ok (sess : SessionRow) (parts : List ParticipantRow)
    (req : UpdateSessionRequest) (s : SessionRow)
    (h : applyUpdateFields sess parts req = .ok s) : s = mergedRow sess req := by
  unfold applyUpdateFields at h
  by_cases h1 : (req.playerLevel ≠ "" && !validatePlayerLevel req.playerLevel) = true
  · rw [if_pos h1] at h
    exact absurd h (by simp)
  · rw [if_neg h1] at h
    by_cases h2 : (req.maxParticipants > 0 &&
        (countParticipantsByStatus parts).1 > req.maxParticipants) = true
    · rw [if_pos h2] at h
      exact absurd h (by simp)
    · rw [if_neg h2] at h
      injection h with h
      subst h
      unfold mergedRow
      split_ifs <;> rfl

theorem find?_update_row (l : List SessionRow) (sid : Nat) (s0 sess : SessionRow)
    (hfind : l.find? (fun r => r.id == sid) = some sess) (hid : s0.id = sid) :
    (l.map (fun r => if r.id == s0.id then s0 else r)).find? (fun r => r.id == sid) =
      some s0 := by
  induction l with
  | nil => simp at hfind
  | cons z zs ih =>
    by_cases hz : (z.id == sid) = true
    · simp only [List.map_cons]
      rw [if_pos (by rw [hid]; exact hz)]
      exact List.find?_cons_of_pos _ (by simp [hid])
    · have hzf : (z.id == sid) = false := by simpa using hz
      have hz0 : (z.id == s0.id) = false := by rw [hid]; exact hzf
      simp only [List.find?_cons, hzf] at hfind
      simp only [List.map_cons]
      rw [if_neg (by simp [hz0])]
      simp only [List.find?_cons, hzf]
      exact ih hfind

/-- C9 (amended): a successful `UpdateSession` stores exactly
`mergedRow sess req` for the addressed session and leaves the participant
rows untouched: the guarded fields keep their stored value when absent
from the request, but `allow_cancellation` always takes the request value
and `cost_per_person` takes the request value whenever it is ≥ 0,
including the absent zero value. -/
theorem updateSession_field_frame
    (db : DB) (now : Int) (sid hostID : Nat) (req : UpdateSessionRequest)
    (sess : SessionRow) (parts : List ParticipantRow)
    (hget : SessionRepo.getByID db sid = some (sess, parts))
    (hok : (updateSession db now sid hostID req).2 = none) :
    ((updateSession db now sid hostID req).1).sessions.find? (fun r => r.id == sid) =
      some (mergedRow sess req) ∧
    ((updateSession db now sid hostID req).1).participants = db.participants := by
  obtain ⟨hfind, -⟩ := getByID_find db sid sess parts hget
  have hid : sess.id = sid := by simpa using List.find?_some hfind
  by_cases hh : sess.hostID ≠ hostID
  · exfalso
    have hval : (updateSession db now sid hostID req).2 = some SessionError.onlyHostCanUpdate := by
      simp only [updateSession, hget]
      rw [if_pos hh]
    rw [hval] at hok
    exact absurd hok (by simp)
  cases hcan : canUpdateSession sess now with
  | some e =>
    exfalso
    have hval : (updateSession db now sid hostID req).2 = some e := by
      simp only [updateSession, hget, hcan]
      rw [if_neg hh]
    rw [hval] at hok
    exact absurd hok (by simp)
  | none =>
  cases happ : applyUpdateFields sess parts req with
  | error e =>
    exfalso
    have hval : (updateSession db now sid hostID req).2 = some e := by
      simp only [updateSession, hget, hcan, happ]
      rw [if_neg hh]
    rw [hval] at hok
    exact absurd hok (by simp)
  | ok s0 =>
  have hmerge : s0 = mergedRow sess req := applyUpdateFields_ok sess parts req s0 happ
  cases hcc : firstCourtConflict db s0.date s0.startMin s0.endMin req.courtIDs with
  | some e =>
    exfalso
    have hval : (updateSession db now sid hostID req).2 = some e := by
      simp only [updateSession, hget, hcan, happ, hcc]
      rw [if_neg hh]
    rw [hval] at hok
    exact absurd hok (by simp)
  | none =>
  cases hupd : SessionRepo.update db s0 req.courtIDs with
  | none =>
    exfalso
    have hval : (updateSession db now sid hostID req).2 = some SessionError.sessionNotFound := by
      simp only [updateSession, hget, hcan, happ, hcc, hupd]
      rw [if_neg hh]
    rw [hval] at hok
    exact absurd hok (by simp)
  | some db1 =>
  have hval : updateSession db now sid hostID req = (db1, none) := by
    simp only [updateSession, hget, hcan, happ, hcc, hupd]
    rw [if_neg hh]
  have hsp : db1.sessions = db.sessions.map (fun r => if r.id == s0.id then s0 else r) ∧
      db1.participants = db.participants := by
    unfold SessionRepo.update at hupd
    split at hupd
    · split at hupd
      · injection hupd with h
        subst h
        exact ⟨rfl, rfl⟩
      · injection hupd with h
        subst h
        exact ⟨rfl, rfl⟩
    · exact absurd hupd (by simp)
  rw [hval]
  refine ⟨?_, hsp.2⟩
  rw [hsp.1]
  subst hmerge
  exact find?_update_row db.sessions sid (mergedRow sess req) sess hfind (by rw [← hid]; rfl)

/-- An open session (id 1, host 10) on date 2 with `allow_cancellation =
true` and `cost_per_person = 100`. -/
def frameSess : SessionRow :=
  { id := 1, hostID := 10, venueID := 5, title := "orig", description := some "d",
    date := 2, startMin := 600, endMin := 720, playerLevel := "beginner",
    maxParticipants := 4, costPerPerson := 100, allowCancellation := true,
    cancellationDeadlineHours := some 3, status := "open" }

/-- A store holding only `frameSess`. -/
def frameDB : DB :=
  { venues := [], sessions := [frameSess], sessionCourts := [(1, 7)], participants := [] }

/-- An update request with every field at its zero value — the decoded
form of a request body providing no field. -/
def emptyUpdateReq : UpdateSessionRequest :=
  { title := "", description := "", courtIDs := [], playerLevel := "",
    maxParticipants := 0, costPerPerson := 0, status := "", allowCancellation := false,
    cancellationDeadlineHours := 0 }

/-- C9 (counterexample): an update request providing no field succeeds,
yet the stored session's `allow_cancellation` flips from `true` to
`false` and its `cost_per_person` from 100 to 0 — two fields the claim
says stay unchanged when absent. -/
theorem updateSession_overwrites_absent_fields :
    (updateSession frameDB 0 1 10 emptyUpdateReq).2 = none ∧
    frameDB.sessions.map (fun r => (r.allowCancellation, r.costPerPerson)) = [(true, 100)] ∧
    ((updateSession frameDB 0 1 10 emptyUpdateReq).1).sessions.map
      (fun r => (r.allowCancellation, r.costPerPerson)) = [(false, 0)] := by
  refine ⟨by decide, by decide, by decide⟩

/-- C9 (witness): the amended frame theorem applied to `frameDB` and the
all-absent request. -/
theorem updateSession_field_frame_witness :
    ((updateSession frameDB 0 1 10 emptyUpdateReq).1).sessions.find? (fun r => r.id == 1) =
      some (mergedRow frameSess emptyUpdateReq) ∧
    ((updateSession frameDB 0 1 10 emptyUpdateReq).1).participants = frameDB.participants :=
  updateSession_field_frame frameDB 0 1 10 emptyUpdateReq frameSess
    (SessionRepo.getParticipants frameDB 1) (by decide) (by decide)

end Badbuddy
